import Mathlib

/-!
Verification of the CI failure classification and reporting engine
(`tasks/libs/pipeline/data.py`): retry consolidation, log-pattern based
infra-failure classification, reportability policy, and PR skip correlation.

The Python source is shallowly embedded below: regexes become a small
derivative-based matcher, the gitlab job objects become plain structures,
the fallible log fetch becomes an `Except`-valued function, and the
`defaultdict` grouping becomes first-occurrence name collection plus
filtering.  `FailedJobs` and the platform failure-code mapping live in
`tasks/libs/types/types.py`, which is not part of the sources at hand;
they are modelled from the specification and marked as such.
-/

namespace PipelineData

/-- Failure types, from `FailedJobType` in the types module. -/
inductive FailedJobType
  | BRIDGE_FAILURE
  | INFRA_FAILURE
  | JOB_FAILURE
deriving DecidableEq

/-- Failure reasons, from `FailedJobReason` in the types module: the
reasons named by `tasks/libs/pipeline/data.py` plus `STUCK`, used by the
spec-modelled platform failure-code mapping. -/
inductive FailedJobReason
  | RUNNER
  | GITLAB
  | EC2_SPOT
  | E2E_INFRA_FAILURE
  | STUCK
  | FAILED_BRIDGE_JOB
  | FAILED_JOB_SCRIPT
deriving DecidableEq

/-- Regular expressions, enough for the patterns of
`tasks/libs/pipeline/data.py`: literal characters, the Python dot
(any character except a newline), character classes, concatenation,
alternation and Kleene star. -/
inductive Regex
  | emptyset
  | epsilon
  | anychar
  | chr (c : Char)
  | cls (p : Char → Bool)
  | cat (r s : Regex)
  | alt (r s : Regex)
  | star (r : Regex)

/-- Does the regex accept the empty string? -/
def Regex.nullable : Regex → Bool
  | .emptyset => false
  | .epsilon => true
  | .anychar => false
  | .chr _ => false
  | .cls _ => false
  | .cat r s => r.nullable && s.nullable
  | .alt r s => r.nullable || s.nullable
  | .star _ => true

/-- Brzozowski derivative of a regex by one character.  The Python dot
does not match a newline. -/
def Regex.deriv : Regex → Char → Regex
  | .emptyset, _ => .emptyset
  | .epsilon, _ => .emptyset
  | .anychar, c => if c = '\n' then .emptyset else .epsilon
  | .chr a, c => if c = a then .epsilon else .emptyset
  | .cls p, c => if p c then .epsilon else .emptyset
  | .cat r s, c => if r.nullable then .alt (.cat (r.deriv c) s) (s.deriv c) else .cat (r.deriv c) s
  | .alt r s, c => .alt (r.deriv c) (s.deriv c)
  | .star r, c => .cat (r.deriv c) (.star r)

/-- Whole-word match: `re.fullmatch` semantics on a character list. -/
def rmatch (r : Regex) : List Char → Bool
  | [] => r.nullable
  | c :: cs => rmatch (r.deriv c) cs

/-- Does the regex match some (possibly empty) leading segment of the
character list? -/
def startMatch (r : Regex) : List Char → Bool
  | [] => r.nullable
  | c :: cs => r.nullable || startMatch (r.deriv c) cs

/-- `re.search` semantics: the regex matches a segment starting at some
position of the character list. -/
def rsearch (r : Regex) : List Char → Bool
  | [] => startMatch r []
  | c :: cs => startMatch r (c :: cs) || rsearch r cs

/-- `re.fullmatch` on a string. -/
def fullmatch (r : Regex) (s : String) : Bool :=
  rmatch r s.data

/-- `re.search` on a string (truthiness of the returned match object). -/
def search (r : Regex) (s : String) : Bool :=
  rsearch r s.data

/-- A literal string as a regex. -/
def lit (s : String) : Regex :=
  s.data.foldr (fun c r => Regex.cat (Regex.chr c) r) Regex.epsilon

/-- Concatenation of a list of regexes. -/
def rcat (rs : List Regex) : Regex :=
  rs.foldr Regex.cat Regex.epsilon

/-- `r+` as `r · r*`. -/
def rplus (r : Regex) : Regex :=
  Regex.cat r (Regex.star r)

/-- `.*` -/
def dotStar : Regex :=
  Regex.star Regex.anychar

/-- `[0-9]` -/
def digit : Regex :=
  Regex.cls (fun c => decide ('0' ≤ c ∧ c ≤ '9'))

/-- An apostrophe character (escaped quote in the Python patterns). -/
def apos : Char :=
  Char.ofNat 39

/-- The ordered table `infra_failure_logs` of `tasks/libs/pipeline/data.py`:
(log pattern, failure reason) rules, evaluated top-to-bottom. -/
def infra_failure_logs : List (Regex × FailedJobReason) :=
  [ -- Gitlab errors while pulling image on legacy runners
    (rcat [lit "no basic auth credentials (", dotStar, Regex.chr ')'], FailedJobReason.RUNNER),
    (rcat [lit "net/http: TLS handshake timeout (", dotStar, Regex.chr ')'], FailedJobReason.RUNNER),
    -- docker / docker-arm runner init failures
    (lit "Docker runner job start script failed", FailedJobReason.RUNNER),
    (rcat [lit "A disposable runner accepted this job, while it shouldn", Regex.chr apos,
           lit "t have. Runners are meant to run just one job and be terminated."],
     FailedJobReason.RUNNER),
    (rcat [lit "WARNING: Failed to pull image with policy \"always\":", dotStar,
           Regex.chr '(', dotStar, Regex.chr ')'],
     FailedJobReason.RUNNER),
    -- k8s Gitlab runner init failures
    (lit "Job failed (system failure): prepare environment: waiting for pod running: timed out waiting for pod to start",
     FailedJobReason.RUNNER),
    (lit "Job failed (system failure): prepare environment: setting up build pod: Internal error occurred: failed calling webhook",
     FailedJobReason.RUNNER),
    -- Gitlab 5xx errors
    (rcat [lit "fatal: unable to access ", Regex.chr apos, dotStar, Regex.chr apos,
           lit ": The requested URL returned error: 5", Regex.anychar, Regex.anychar],
     FailedJobReason.GITLAB),
    -- End to end tests EC2 Spot instances allocation failures
    (rcat [lit "Failed to allocate end to end test EC2 Spot instance after ", rplus digit,
           lit " attempts"],
     FailedJobReason.EC2_SPOT),
    (rcat [lit "Connection to ", rplus digit, Regex.chr '.', rplus digit, Regex.chr '.',
           rplus digit, Regex.chr '.', rplus digit, lit " closed by remote host."],
     FailedJobReason.EC2_SPOT),
    -- End to end tests internal infrastructure failures
    (lit "E2E INTERNAL ERROR", FailedJobReason.E2E_INFRA_FAILURE)
  ]

/-- Modelled from the spec: `FailedJobReason.get_infra_failure_mapping` lives
in `tasks/libs/types/types.py`, which is not among the sources; per §4.1 it
is a fixed table of platform-native failure codes known to represent
infrastructure problems (runner system failure, stuck/expired job, runner
unsupported), each mapped to a taxonomy reason. -/
def get_infra_failure_mapping : List (String × FailedJobReason) :=
  [("runner_system_failure", FailedJobReason.RUNNER),
   ("stuck_or_timeout_failure", FailedJobReason.STUCK),
   ("runner_unsupported", FailedJobReason.RUNNER)]

/-- Modelled from the spec: `FailedJobReason.from_gitlab_job_failure_reason`
lives in `tasks/libs/types/types.py`, which is not among the sources; per
§4.1 it returns the taxonomy reason the platform code maps to. -/
def from_gitlab_job_failure_reason (code : String) : Option FailedJobReason :=
  get_infra_failure_mapping.lookup code

/-- `get_infra_failure_info` of `tasks/libs/pipeline/data.py`: an empty log
means a Gitlab-side infra failure; otherwise the first matching rule of
`infra_failure_logs` gives the reason, and no match gives nothing. -/
def get_infra_failure_info (job_log : String) : Option FailedJobReason :=
  if job_log = "" then some FailedJobReason.GITLAB
  else (infra_failure_logs.find? (fun p => search p.1 job_log)).map (fun p => p.2)

/-- Job kinds: a standard `ProjectJob` or a `ProjectPipelineBridge`. -/
inductive JobKind
  | standard
  | bridge
deriving DecidableEq

/-- One attempt to run a named job in a pipeline (the fields of the gitlab
job objects that `tasks/libs/pipeline/data.py` reads).  `created_at` is a
timestamp, ordered as the source orders it. -/
structure JobExecution where
  id : Nat
  name : String
  stage : String
  status : String
  tag_list : List String
  allow_failure : Bool
  web_url : String
  created_at : Nat
  failure_reason : Option String
  kind : JobKind
deriving DecidableEq

/-- `get_job_failure_context` of `tasks/libs/pipeline/data.py`. -/
def get_job_failure_context (job : JobExecution) (job_log : String) :
    FailedJobType × FailedJobReason :=
  if job.kind = JobKind.bridge then
    (FailedJobType.BRIDGE_FAILURE, FailedJobReason.FAILED_BRIDGE_JOB)
  else
    match job.failure_reason.bind from_gitlab_job_failure_reason with
    | some r => (FailedJobType.INFRA_FAILURE, r)
    | none =>
      match get_infra_failure_info job_log with
      | some t => (FailedJobType.INFRA_FAILURE, t)
      | none => (FailedJobType.JOB_FAILURE, FailedJobReason.FAILED_JOB_SCRIPT)

/-- `jobs_allowed_to_have_full_names` of `tasks/libs/pipeline/data.py`:
the single pattern `kmt_run_.+_tests_.*`. -/
def jobs_allowed_to_have_full_names : List Regex :=
  [rcat [lit "kmt_run_", rplus Regex.anychar, lit "_tests_", dotStar]]

/-- Python `s.split(sep)` on a character list. -/
def splitList (sep : Char) : List Char → List (List Char)
  | [] => [[]]
  | c :: cs =>
    if c = sep then [] :: splitList sep cs
    else
      match splitList sep cs with
      | [] => [[c]]
      | g :: gs => (c :: g) :: gs

/-- `truncate_job_name` of `tasks/libs/pipeline/data.py`.  The source gives
`max_char_per_job` the default value 48; callers here pass it explicitly. -/
def truncate_job_name (job_name : String) (max_char_per_job : Nat) : String :=
  if jobs_allowed_to_have_full_names.any (fun p => fullmatch p job_name) then job_name
  else
    -- job_name.split(":")[0], then [:max_char_per_job]
    String.mk (((splitList ':' job_name.data).headD []).take max_char_per_job)

/-- `jobs_allowed_to_fail_but_need_report` of `tasks/libs/pipeline/data.py`:
empty in the source. -/
def jobs_allowed_to_fail_but_need_report : List Regex :=
  []

/-- `should_report_job` of `tasks/libs/pipeline/data.py`. -/
def should_report_job (job_name : String) (allow_failure : Bool) : Bool :=
  !allow_failure || jobs_allowed_to_fail_but_need_report.any (fun p => fullmatch p job_name)

/-- The canonical, reported view of one logical job name: the `attrs` of the
`ProjectJob` that `get_failed_jobs` constructs. -/
structure FinalJobStatus where
  name : String
  full_name : String
  id : Nat
  stage : String
  status : String
  tag_list : List String
  allow_failure : Bool
  web_url : String
  retry_summary : List String
  failure_type : FailedJobType
  failure_reason : FailedJobReason
deriving DecidableEq

/-- Modelled from the spec: `FailedJobs` lives in
`tasks/libs/types/types.py`, which is not among the sources; per §3 it is
the failure report, collecting the statuses handed to `add_failed_job`. -/
structure FailedJobs where
  jobs : List FinalJobStatus
deriving DecidableEq

/-- Modelled from the spec: `FailedJobs.add_failed_job` appends one final
job status to the report. -/
def FailedJobs.add_failed_job (fj : FailedJobs) (j : FinalJobStatus) : FailedJobs :=
  FailedJobs.mk (fj.jobs ++ [j])

/-- Modelled from the spec: `FailedJobs.all_mandatory_failures` returns the
entries of the report that are mandatory, i.e. not excluded by the
allow-failure policy of §4.4 step 7 (an entry is mandatory unless
`allow_failure` is set and its display name matches no
report-despite-allowed-failure pattern). -/
def FailedJobs.all_mandatory_failures (fj : FailedJobs) : List FinalJobStatus :=
  fj.jobs.filter (fun j => should_report_job j.name j.allow_failure)

/-- Modelled from the spec: the entries of the report excluded from the
mandatory set by the allow-failure policy. -/
def FailedJobs.excluded_failures (fj : FailedJobs) : List FinalJobStatus :=
  fj.jobs.filter (fun j => !should_report_job j.name j.allow_failure)

/-- A transport (network / permission) error raised by the platform API,
e.g. by the log fetch `repo.jobs.get(id, lazy=True).trace()`. -/
structure TransportError where
  msg : String
deriving DecidableEq

/-- Python's stable `list.sort(key=lambda x: x.created_at)`. -/
def sortByCreatedAt (jobs : List JobExecution) : List JobExecution :=
  jobs.insertionSort (fun a b => a.created_at ≤ b.created_at)

/-- Key-insertion into the `defaultdict`: a fresh name is appended, a known
name leaves the key order unchanged. -/
def insertName (acc : List String) (n : String) : List String :=
  if n ∈ acc then acc else acc ++ [n]

/-- The keys of the `failed_jobs` defaultdict of `get_failed_jobs`, in
insertion order: the names of the failed executions, first occurrence
first.  Only executions with `status == "failed"` are entered (line 25 of
`tasks/libs/pipeline/data.py`). -/
def failedNames (executions : List JobExecution) : List String :=
  (executions.filter (fun j => j.status == "failed")).foldl
    (fun acc j => insertName acc j.name) []

/-- The group the `failed_jobs` defaultdict holds under `name`: the failed
executions bearing that name, in arrival order. -/
def groupFor (executions : List JobExecution) (name : String) : List JobExecution :=
  executions.filter (fun j => j.status == "failed" && j.name == name)

/-- One iteration of the loop over groups in `get_failed_jobs`: sort the
group by `created_at`, take the last element as the canonical execution,
fetch its trace when it is a standard job (the source has no exception
handler here, so a fetch error propagates), classify, build the
`FinalJobStatus`, and add it to the report when its status is `failed` and
`should_report_job` accepts it. -/
def process_group (fetch : Nat → Except TransportError String) (job_name : String)
    (group : List JobExecution) (acc : FailedJobs) : Except TransportError FailedJobs :=
  match (sortByCreatedAt group).getLast? with
  | none => Except.ok acc
  | some job =>
    (if job.kind ≠ JobKind.bridge then fetch job.id else Except.ok "").bind (fun trace =>
      Except.ok
        (if job.status == "failed" &&
            should_report_job (truncate_job_name job_name 48) job.allow_failure
         then acc.add_failed_job
           ⟨truncate_job_name job_name 48, job_name, job.id, job.stage, job.status,
            if job.kind ≠ JobKind.bridge then job.tag_list else [],
            job.allow_failure, job.web_url,
            (sortByCreatedAt group).map (fun ijob => ijob.status),
            (get_job_failure_context job trace).1, (get_job_failure_context job trace).2⟩
         else acc))

/-- The loop of `get_failed_jobs` over the groups, in key-insertion order.
An error from a group's log fetch propagates and aborts the remaining
groups. -/
def get_failed_jobs_go (executions : List JobExecution)
    (fetch : Nat → Except TransportError String) :
    List String → FailedJobs → Except TransportError FailedJobs
  | [], acc => Except.ok acc
  | n :: rest, acc =>
    (process_group fetch n (groupFor executions n) acc).bind
      (get_failed_jobs_go executions fetch rest)

/-- `get_failed_jobs` of `tasks/libs/pipeline/data.py` (the spec's
`build_report`).  The listing of jobs and bridges is resolved by the
caller into `executions`; the log fetch is passed as a fallible
function. -/
def get_failed_jobs (executions : List JobExecution)
    (fetch : Nat → Except TransportError String) : Except TransportError FailedJobs :=
  get_failed_jobs_go executions fetch (failedNames executions) (FailedJobs.mk [])

/-- A pull request, as read by `get_jobs_skipped_on_pr`: its number and its
source branch (`pr.head.ref`). -/
structure PRHandle where
  number : Nat
  head_ref : String
deriving DecidableEq

/-- A pipeline, as read by `get_jobs_skipped_on_pr`: its standard jobs, its
bridge jobs, and its URL. -/
structure PipelineHandle where
  jobs : List JobExecution
  bridges : List JobExecution
  web_url : String
deriving DecidableEq

/-- The inner loop of `get_jobs_skipped_on_pr` over the PR pipeline's
executions, carrying the `generated` flag: scanning the executions for one
named `full`, the failed job is appended (result `true`) when the first
name match with a non-terminal status is reached, and after an unbroken
scan exactly when no execution matched. -/
def prScan (full : String) : List JobExecution → Bool → Bool
  | [], generated => !generated
  | j :: rest, generated =>
    if j.name = full then
      if ¬(j.status = "failed" ∨ j.status = "success") then true
      else prScan full rest true
    else prScan full rest generated

/-- Whether the inner loop of `get_jobs_skipped_on_pr` counts the failed
job with full name `full` as skipped on the PR pipeline's executions. -/
def prJobSkipped (jobs : List JobExecution) (full : String) : Bool :=
  prScan full jobs false

/-- The outer loop of `get_jobs_skipped_on_pr` over the mandatory
failures: each failed job counted as skipped contributes its (truncated)
`name` to `missed_jobs`. -/
def missedLoop (jobs : List JobExecution) : List FinalJobStatus → List String
  | [] => []
  | f :: rest =>
    if prJobSkipped jobs f.full_name then f.name :: missedLoop jobs rest
    else missedLoop jobs rest

/-- `get_jobs_skipped_on_pr` of `tasks/libs/pipeline/data.py`.  The
external collaborators are passed in: `prs` is the list of pull requests
containing the pipeline's commit, `pipelines_for_branch` lists the
pipelines of a branch, most recent first.  The source's warning prints are
not modelled (they only write to the console). -/
def get_jobs_skipped_on_pr (prs : List PRHandle)
    (pipelines_for_branch : String → List PipelineHandle)
    (failed_jobs : FailedJobs) : List String × String :=
  match prs with
  | [] => ([], "")
  | [pr] =>
    match pipelines_for_branch pr.head_ref with
    | [] => ([], "")
    | pr_pipeline :: _ =>
      (missedLoop (pr_pipeline.jobs ++ pr_pipeline.bridges)
         failed_jobs.all_mandatory_failures,
       pr_pipeline.web_url)
  | _ :: _ :: _ => ([], "")

/-! Concrete fixtures used by the example-level theorems below. -/

/-- A log fetch that always succeeds with an empty log. -/
def emptyLogFetch : Nat → Except TransportError String :=
  fun _ => Except.ok ""

/-- A failed first attempt of the job `lint_go`. -/
def c1_failed_attempt : JobExecution :=
  ⟨101, "lint_go", "lint", "failed", [], false, "jobs/101", 1, none, JobKind.standard⟩

/-- A successful later retry of the job `lint_go`. -/
def c1_success_retry : JobExecution :=
  ⟨102, "lint_go", "lint", "success", [], false, "jobs/102", 2, none, JobKind.standard⟩

/-- A failed first attempt of the job `build_x64`. -/
def c5_first_failure : JobExecution :=
  ⟨201, "build_x64", "build", "failed", [], false, "jobs/201", 1, none, JobKind.standard⟩

/-- A successful second attempt of the job `build_x64`. -/
def c5_success_retry : JobExecution :=
  ⟨202, "build_x64", "build", "success", [], false, "jobs/202", 2, none, JobKind.standard⟩

/-- A failed third attempt of the job `build_x64`. -/
def c5_late_failure : JobExecution :=
  ⟨203, "build_x64", "build", "failed", [], false, "jobs/203", 3, none, JobKind.standard⟩

/-- A failed standard job whose log fetch will be denied. -/
def c2_job : JobExecution :=
  ⟨301, "e2e_suite", "test", "failed", [], false, "jobs/301", 1, none, JobKind.standard⟩

/-- A log fetch that always fails with a permission error. -/
def c2_forbidden : Nat → Except TransportError String :=
  fun _ => Except.error ⟨"403 Forbidden"⟩

/-- A failed standard job used by the C2 witness. -/
def c2w_job : JobExecution :=
  ⟨302, "unit_win", "test", "failed", [], false, "jobs/302", 4, none, JobKind.standard⟩

/-- A log fetch that always fails with a network timeout. -/
def c2w_timeout : Nat → Except TransportError String :=
  fun _ => Except.error ⟨"read timeout"⟩

/-- A failed job with `allow_failure` set whose name matches no
report-despite-allowed-failure pattern. -/
def c3_allowed_job : JobExecution :=
  ⟨401, "flaky_canary", "test", "failed", [], true, "jobs/401", 1, none, JobKind.standard⟩

/-- A failed job with `allow_failure` unset. -/
def c3w_job : JobExecution :=
  ⟨402, "compile_core", "build", "failed", [], false, "jobs/402", 1, none, JobKind.standard⟩

/-- The report `get_failed_jobs` produces for `[c3w_job]`. -/
def c3w_report : FailedJobs :=
  ⟨[⟨"compile_core", "compile_core", 402, "build", "failed", [], false, "jobs/402",
     ["failed"], FailedJobType.INFRA_FAILURE, FailedJobReason.GITLAB⟩]⟩

/-- A failed bridge execution. -/
def c4_bridge_job : JobExecution :=
  ⟨501, "trigger_downstream", "trigger", "failed", [], false, "jobs/501", 1, none, JobKind.bridge⟩

/-- A failed standard job with an infra-mapped platform failure code. -/
def c4_mapped_job : JobExecution :=
  ⟨502, "pkg_deb", "package", "failed", [], false, "jobs/502", 1,
   some "runner_system_failure", JobKind.standard⟩

/-- A failed standard job with no platform failure code. -/
def c4_script_job : JobExecution :=
  ⟨503, "go_test", "test", "failed", [], false, "jobs/503", 1, none, JobKind.standard⟩

/-- A failed bridge execution used by the C6 witness. -/
def c6_bridge_job : JobExecution :=
  ⟨601, "downstream_kernel", "trigger", "failed", [], false, "jobs/601", 2, none, JobKind.bridge⟩

/-- A PR-pipeline execution that matched a failed job's full name but never
reached a terminal status. -/
def c8_pr_job : JobExecution :=
  ⟨701, "integration_suite", "test", "running", [], false, "pr/701", 1, none, JobKind.standard⟩

/-- A mandatory failed job searched for on the PR pipeline. -/
def c8_failed_status : FinalJobStatus :=
  ⟨"integration_suite", "integration_suite", 702, "test", "failed", [], false, "jobs/702",
   ["failed"], FailedJobType.JOB_FAILURE, FailedJobReason.FAILED_JOB_SCRIPT⟩

/-- A pull request handle. -/
def c9_pr : PRHandle :=
  ⟨41, "user/feature"⟩

/-- A branch→pipelines lookup that finds no pipeline. -/
def c9_no_pipelines : String → List PipelineHandle :=
  fun _ => []

/-- An empty failure report. -/
def c9_report : FailedJobs :=
  ⟨[]⟩

/-- A pull request handle for the C10 witness. -/
def c10_pr : PRHandle :=
  ⟨42, "user/fix"⟩

/-- A mandatory failure whose full name truncates to `tests_suite`. -/
def c10_f1 : FinalJobStatus :=
  ⟨"tests_suite", "tests_suite:linux", 801, "test", "failed", [], false, "jobs/801",
   ["failed"], FailedJobType.JOB_FAILURE, FailedJobReason.FAILED_JOB_SCRIPT⟩

/-- A distinct mandatory failure whose full name truncates to the same
display name. -/
def c10_f2 : FinalJobStatus :=
  ⟨"tests_suite", "tests_suite:windows", 802, "test", "failed", [], false, "jobs/802",
   ["failed"], FailedJobType.JOB_FAILURE, FailedJobReason.FAILED_JOB_SCRIPT⟩

/-- A report holding the two colliding mandatory failures. -/
def c10_report : FailedJobs :=
  ⟨[c10_f1, c10_f2]⟩

/-- A PR pipeline with no executions at all. -/
def c10_pr_pipeline : PipelineHandle :=
  ⟨[], [], "pipelines/9000"⟩

/-- A branch→pipelines lookup resolving to `c10_pr_pipeline`. -/
def c10_lookup : String → List PipelineHandle :=
  fun _ => [c10_pr_pipeline]

/-- A colon-free job name of 60 characters. -/
def c7_longname : String :=
  "aaaaaaaaaabbbbbbbbbbccccccccccddddddddddeeeeeeeeeeffffffffff"

/-- The first 48 characters of `c7_longname`. -/
def c7_long48 : String :=
  "aaaaaaaaaabbbbbbbbbbccccccccccddddddddddeeeeeeee"

/-! Helper lemmas. -/

/-- Python `split` never returns an empty list of groups. -/
theorem splitList_ne_nil (sep : Char) (l : List Char) : splitList sep l ≠ [] := by
  induction l with
  | nil => simp [splitList]
  | cons c cs ih =>
    simp only [splitList]
    split
    · simp
    · cases h : splitList sep cs with
      | nil => exact absurd h ih
      | cons g gs => simp [h]

/-- The first group of a Python `split` is the longest separator-free
prefix. -/
theorem splitList_headD_eq_takeWhile (sep : Char) (l : List Char) :
    (splitList sep l).headD [] = l.takeWhile (fun c => c != sep) := by
  induction l with
  | nil => simp [splitList]
  | cons c cs ih =>
    simp only [splitList, List.takeWhile]
    by_cases hc : c = sep
    · simp [hc]
    · simp only [if_neg hc]
      cases h : splitList sep cs with
      | nil => exact absurd h (splitList_ne_nil sep cs)
      | cons g gs =>
        have hg : g = cs.takeWhile (fun c => c != sep) := by
          have := ih
          rw [h] at this
          simpa using this
        have hbe : (c != sep) = true := by simp [hc]
        simp [hg, List.takeWhile, hbe]

/-- `find?` returns the entry at the first index where the predicate
holds. -/
theorem find?_eq_get_of_first {α : Type} (pred : α → Bool) (l : List α) (i : Nat)
    (hi : i < l.length)
    (hbefore : ∀ k (hk : k < i), pred (l.get ⟨k, hk.trans hi⟩) = false)
    (hhit : pred (l.get ⟨i, hi⟩) = true) :
    l.find? pred = some (l.get ⟨i, hi⟩) := by
  induction l generalizing i with
  | nil => exact absurd hi (by simp)
  | cons a tl ih =>
    cases i with
    | zero =>
      exact List.find?_cons_of_pos _ hhit
    | succ j =>
      have ha : pred a = false := hbefore 0 (Nat.succ_pos j)
      rw [List.find?_cons_of_neg _ (by simp [ha])]
      exact ih j (Nat.lt_of_succ_lt_succ hi)
        (fun k hk => hbefore (k + 1) (Nat.succ_lt_succ hk)) hhit

/-- The inner loop of `get_jobs_skipped_on_pr`, characterized: starting
with flag `generated`, it reports the job as skipped exactly when either no
execution matches and the flag is unset, or some matching execution has a
non-terminal status. -/
theorem prScan_eq_true_iff (full : String) (jobs : List JobExecution) (generated : Bool) :
    prScan full jobs generated = true ↔
      (generated = false ∧ ∀ j ∈ jobs, j.name ≠ full) ∨
      (∃ j ∈ jobs, j.name = full ∧ j.status ≠ "failed" ∧ j.status ≠ "success") := by
  induction jobs generalizing generated with
  | nil =>
    cases generated <;> simp [prScan]
  | cons j rest ih =>
    simp only [prScan]
    by_cases hname : j.name = full
    · rw [if_pos hname]
      by_cases hterm : j.status = "failed" ∨ j.status = "success"
      · rw [if_neg (not_not_intro hterm)]
        rw [ih true]
        constructor
        · rintro (⟨h, _⟩ | ⟨x, hx, hxf⟩)
          · exact absurd h (by simp)
          · exact Or.inr ⟨x, List.mem_cons_of_mem _ hx, hxf⟩
        · rintro (⟨_, hall⟩ | ⟨x, hx, hxn, hxf⟩)
          · exact absurd hname (hall j (List.mem_cons_self j rest))
          · rcases List.mem_cons.mp hx with rfl | hx
            · rcases hterm with h | h
              · exact absurd h hxf.1
              · exact absurd h hxf.2
            · exact Or.inr ⟨x, hx, hxn, hxf⟩
      · rw [if_pos hterm]
        push_neg at hterm
        constructor
        · intro _
          exact Or.inr ⟨j, List.mem_cons_self j rest, hname, hterm.1, hterm.2⟩
        · intro _
          rfl
    · rw [if_neg hname]
      rw [ih generated]
      constructor
      · rintro (⟨hg, hall⟩ | ⟨x, hx, hxf⟩)
        · refine Or.inl ⟨hg, fun k hk => ?_⟩
          rcases List.mem_cons.mp hk with rfl | hk
          · exact hname
          · exact hall k hk
        · exact Or.inr ⟨x, List.mem_cons_of_mem _ hx, hxf⟩
      · rintro (⟨hg, hall⟩ | ⟨x, hx, hxf⟩)
        · exact Or.inl ⟨hg, fun k hk => hall k (List.mem_cons_of_mem _ hk)⟩
        · rcases List.mem_cons.mp hx with rfl | hx
          · exact absurd hxf.1 hname
          · exact Or.inr ⟨x, hx, hxf⟩

/-- A platform failure code never maps to the bridge reason. -/
theorem mapped_reason_ne_bridge (c : String) (r : FailedJobReason)
    (h : from_gitlab_job_failure_reason c = some r) :
    r ≠ FailedJobReason.FAILED_BRIDGE_JOB := by
  rcases List.lookup_eq_some_iff.mp h with ⟨l₁, l₂, hsplit, -⟩
  have hmem : (c, r) ∈ get_infra_failure_mapping := by
    rw [hsplit]
    exact List.mem_append_right _ (List.mem_cons_self _ _)
  simp only [get_infra_failure_mapping, List.mem_cons, List.mem_singleton,
    List.not_mem_nil, or_false] at hmem
  rcases hmem with h1 | h1 | h1 <;> (injection h1 with _ h2; rw [h2]; decide)

/-- A log-derived infra reason is never the bridge reason. -/
theorem log_reason_ne_bridge (job_log : String) (r : FailedJobReason)
    (h : get_infra_failure_info job_log = some r) :
    r ≠ FailedJobReason.FAILED_BRIDGE_JOB := by
  unfold get_infra_failure_info at h
  split at h
  · injection h with h1
    rw [← h1]
    decide
  · rcases Option.map_eq_some'.mp h with ⟨p, hp, hpr⟩
    have hmem := List.mem_of_find?_eq_some hp
    rw [← hpr]
    revert hmem
    simp only [infra_failure_logs, List.mem_cons, List.not_mem_nil, or_false]
    rintro (rfl | rfl | rfl | rfl | rfl | rfl | rfl | rfl | rfl | rfl | rfl) <;> decide

/-- Key-insertion never empties a nonempty key list, and yields a nonempty
one from an empty list. -/
theorem insertName_ne_nil (acc : List String) (n : String) : insertName acc n ≠ [] := by
  unfold insertName
  split
  · rename_i hmem
    exact List.ne_nil_of_mem hmem
  · simp

/-- The key fold of the `failed_jobs` defaultdict keeps a nonempty key
list nonempty. -/
theorem foldl_insertName_ne_nil (l : List JobExecution) :
    ∀ acc : List String, acc ≠ [] →
      l.foldl (fun acc j => insertName acc j.name) acc ≠ [] := by
  induction l with
  | nil => intro acc h; simpa using h
  | cons j rest ih =>
    intro acc _
    exact ih (insertName acc j.name) (insertName_ne_nil acc j.name)

/-- Every key produced by the defaultdict fold is an existing key or the
name of a listed execution. -/
theorem mem_foldl_insertName (l : List JobExecution) :
    ∀ (acc : List String) (n : String),
      n ∈ l.foldl (fun acc j => insertName acc j.name) acc →
      n ∈ acc ∨ ∃ j ∈ l, j.name = n := by
  induction l with
  | nil => intro acc n h; exact Or.inl (by simpa using h)
  | cons j rest ih =>
    intro acc n h
    rcases ih (insertName acc j.name) n h with hacc | ⟨k, hk, hkn⟩
    · unfold insertName at hacc
      split at hacc
      · exact Or.inl hacc
      · rcases List.mem_append.mp hacc with h1 | h1
        · exact Or.inl h1
        · exact Or.inr ⟨j, List.mem_cons_self j rest, (List.mem_singleton.mp h1).symm⟩
    · exact Or.inr ⟨k, List.mem_cons_of_mem _ hk, hkn⟩

/-- Every group key of `get_failed_jobs` is the name of some failed
execution. -/
theorem failedNames_sound (executions : List JobExecution) (n : String)
    (h : n ∈ failedNames executions) :
    ∃ j ∈ executions, j.status = "failed" ∧ j.name = n := by
  rcases mem_foldl_insertName _ [] n h with h1 | ⟨j, hj, hjn⟩
  · exact absurd h1 (List.not_mem_nil n)
  · rcases List.mem_filter.mp hj with ⟨hmem, hst⟩
    exact ⟨j, hmem, by simpa using hst, hjn⟩

/-- When some execution failed, `get_failed_jobs` has at least one group. -/
theorem failedNames_ne_nil (executions : List JobExecution)
    (h : ∃ j ∈ executions, j.status = "failed") :
    failedNames executions ≠ [] := by
  rcases h with ⟨j, hj, hst⟩
  have hjf : j ∈ executions.filter (fun j => j.status == "failed") :=
    List.mem_filter.mpr ⟨hj, by simp [hst]⟩
  unfold failedNames
  cases hf : executions.filter (fun j => j.status == "failed") with
  | nil => rw [hf] at hjf; exact absurd hjf (List.not_mem_nil j)
  | cons k rest =>
    simp only [List.foldl_cons]
    exact foldl_insertName_ne_nil rest _ (insertName_ne_nil [] k.name)

/-- Sorting a group by creation date permutes it. -/
theorem sortByCreatedAt_perm (jobs : List JobExecution) :
    List.Perm (sortByCreatedAt jobs) jobs :=
  List.perm_insertionSort _ jobs

/-- A member of a group is in `executions` whenever the group came from
`groupFor`. -/
theorem mem_of_mem_groupFor (executions : List JobExecution) (n : String)
    (j : JobExecution) (h : j ∈ groupFor executions n) : j ∈ executions :=
  (List.mem_filter.mp h).1

/-- A nonempty group stays nonempty after sorting. -/
theorem sortByCreatedAt_ne_nil (jobs : List JobExecution) (h : jobs ≠ []) :
    sortByCreatedAt jobs ≠ [] := by
  intro hs
  have hp := sortByCreatedAt_perm jobs
  rw [hs] at hp
  exact h hp.symm.eq_nil

/-- Every entry a group iteration adds to the report passes
`should_report_job` on its display name. -/
theorem process_group_pred (fetch : Nat → Except TransportError String) (n : String)
    (group : List JobExecution) (acc out : FailedJobs)
    (hacc : ∀ j ∈ acc.jobs, should_report_job j.name j.allow_failure = true)
    (h : process_group fetch n group acc = Except.ok out) :
    ∀ j ∈ out.jobs, should_report_job j.name j.allow_failure = true := by
  unfold process_group at h
  split at h
  · injection h with h1
    rw [← h1]
    exact hacc
  · rename_i job _
    cases hb : (if job.kind ≠ JobKind.bridge then fetch job.id else Except.ok "") with
    | error e =>
      rw [hb] at h
      exact absurd h (by simp [Except.bind])
    | ok trace =>
      rw [hb] at h
      simp only [Except.bind] at h
      injection h with h1
      rw [← h1]
      split
      · rename_i hcond
        intro j hj
        simp only [FailedJobs.add_failed_job] at hj
        rcases List.mem_append.mp hj with hjm | hjm
        · exact hacc j hjm
        · rw [List.mem_singleton.mp hjm]
          exact (Bool.and_eq_true_iff.mp hcond).2
      · exact hacc

/-- Every entry the group loop of `get_failed_jobs` accumulates passes
`should_report_job` on its display name. -/
theorem get_failed_jobs_go_pred (executions : List JobExecution)
    (fetch : Nat → Except TransportError String) :
    ∀ (names : List String) (acc out : FailedJobs),
      (∀ j ∈ acc.jobs, should_report_job j.name j.allow_failure = true) →
      get_failed_jobs_go executions fetch names acc = Except.ok out →
      ∀ j ∈ out.jobs, should_report_job j.name j.allow_failure = true := by
  intro names
  induction names with
  | nil =>
    intro acc out hacc h
    injection h with h1
    rw [← h1]
    exact hacc
  | cons n rest ih =>
    intro acc out hacc h
    simp only [get_failed_jobs_go] at h
    cases hp : process_group fetch n (groupFor executions n) acc with
    | error e =>
      rw [hp] at h
      exact absurd h (by simp [Except.bind])
    | ok mid =>
      rw [hp] at h
      simp only [Except.bind] at h
      exact ih mid out (process_group_pred fetch n _ acc mid hacc hp) h

/-- When the canonical execution of a nonempty all-standard group is
fetched through a log fetch that always fails, the group iteration fails
with that error. -/
theorem process_group_fetch_error (fetch : Nat → Except TransportError String)
    (e : TransportError) (n : String) (group : List JobExecution) (acc : FailedJobs)
    (hne : group ≠ [])
    (hstd : ∀ j ∈ group, j.kind = JobKind.standard)
    (hfetch : ∀ i, fetch i = Except.error e) :
    process_group fetch n group acc = Except.error e := by
  have hsne : sortByCreatedAt group ≠ [] := sortByCreatedAt_ne_nil group hne
  have hlast : (sortByCreatedAt group).getLast? =
      some ((sortByCreatedAt group).getLast hsne) :=
    List.getLast?_eq_getLast _ hsne
  have hmem : (sortByCreatedAt group).getLast hsne ∈ group :=
    (sortByCreatedAt_perm group).mem_iff.mp (List.getLast_mem hsne)
  have hkind : ((sortByCreatedAt group).getLast hsne).kind ≠ JobKind.bridge := by
    rw [hstd _ hmem]
    decide
  unfold process_group
  rw [hlast]
  simp only [if_pos hkind, hfetch]
  rfl

/-- The outer loop of `get_jobs_skipped_on_pr` is a filter of the mandatory
failures by the skip condition followed by projection to display names. -/
theorem missedLoop_eq_filter_map (jobs : List JobExecution) (fs : List FinalJobStatus) :
    missedLoop jobs fs =
      (fs.filter (fun f => prJobSkipped jobs f.full_name)).map (fun f => f.name) := by
  induction fs with
  | nil => simp [missedLoop]
  | cons f rest ih =>
    simp only [missedLoop, List.filter]
    by_cases h : prJobSkipped jobs f.full_name
    · simp [h, ih]
    · simp [h, ih, Bool.of_not_eq_true h]

/-! Theorems settling the claims. -/

/-- C1: the claim states that `get_failed_jobs` groups all executions of a
name, takes the latest-created one as canonical, and reports the name only
when that canonical execution failed, so that a job whose latest attempt
succeeded after an earlier failure is not reported.  The code instead
filters to failed executions before grouping (line 25 of
`tasks/libs/pipeline/data.py`), contradicting its own comments at lines
28–29 and 38–39: evaluated on a failed attempt followed by a successful
retry of `lint_go`, the report still contains `lint_go` as a failed job,
built from the failed attempt alone. -/
theorem get_failed_jobs_reports_job_with_successful_latest_retry :
    get_failed_jobs [c1_failed_attempt, c1_success_retry] emptyLogFetch =
      Except.ok ⟨[⟨"lint_go", "lint_go", 101, "lint", "failed", [], false, "jobs/101",
        ["failed"], FailedJobType.INFRA_FAILURE, FailedJobReason.GITLAB⟩]⟩ := by
  rfl

/-- C5: the claim states that each reported job's `retry_summary` has one
entry per execution bearing that name.  Because the code groups only
failed executions, a successful middle attempt is missing: on three
attempts of `build_x64` (failed, success, failed) the reported
`retry_summary` is `["failed", "failed"]` of length 2, while 3 executions
bear the name. -/
theorem retry_summary_misses_successful_attempts :
    get_failed_jobs [c5_first_failure, c5_success_retry, c5_late_failure] emptyLogFetch =
      Except.ok ⟨[⟨"build_x64", "build_x64", 203, "build", "failed", [], false, "jobs/203",
        ["failed", "failed"], FailedJobType.INFRA_FAILURE, FailedJobReason.GITLAB⟩]⟩ ∧
    ([c5_first_failure, c5_success_retry, c5_late_failure].filter
        (fun j => j.name == "build_x64")).length = 3 :=
  ⟨rfl, rfl⟩

/-- C2 counterexample: the claim states that a log-fetch transport error
for one failed job group does not abort `get_failed_jobs`.  The source has
no exception handler around the trace fetch (line 40 of
`tasks/libs/pipeline/data.py`): with a single failed standard job and a
fetch that is denied, the whole computation returns the transport error
instead of a report. -/
theorem get_failed_jobs_fetch_error_aborts_concrete :
    get_failed_jobs [c2_job] c2_forbidden = Except.error ⟨"403 Forbidden"⟩ := by
  rfl

/-- C2 amended: a log-fetch transport error for a failed job group
propagates out of `get_failed_jobs`; no report is produced and the
remaining groups are not processed.  Stated for a fetch that always fails
over executions that are all standard with at least one failure, so that
the first group's fetch is reached and errors. -/
theorem get_failed_jobs_propagates_fetch_error (executions : List JobExecution)
    (e : TransportError) (fetch : Nat → Except TransportError String)
    (hfetch : ∀ i, fetch i = Except.error e)
    (hstd : ∀ j ∈ executions, j.kind = JobKind.standard)
    (hfail : ∃ j ∈ executions, j.status = "failed") :
    get_failed_jobs executions fetch = Except.error e := by
  unfold get_failed_jobs
  cases hn : failedNames executions with
  | nil => exact absurd hn (failedNames_ne_nil executions hfail)
  | cons n rest =>
    have hmem : n ∈ failedNames executions := by
      rw [hn]
      exact List.mem_cons_self n rest
    rcases failedNames_sound executions n hmem with ⟨j, hj, hjs, hjn⟩
    have hgrp : groupFor executions n ≠ [] :=
      List.ne_nil_of_mem (List.mem_filter.mpr ⟨hj, by simp [hjs, hjn]⟩)
    simp only [get_failed_jobs_go]
    rw [process_group_fetch_error fetch e n (groupFor executions n) ⟨[]⟩ hgrp
      (fun k hk => hstd k (mem_of_mem_groupFor executions n k hk)) hfetch]
    rfl

/-- C2 witness: the amended propagation theorem applied to one failed
standard job and a fetch that times out. -/
theorem get_failed_jobs_propagates_fetch_error_witness :
    get_failed_jobs [c2w_job] c2w_timeout = Except.error ⟨"read timeout"⟩ :=
  get_failed_jobs_propagates_fetch_error [c2w_job] ⟨"read timeout"⟩ c2w_timeout
    (fun _ => rfl)
    (by
      intro j hj
      rw [List.mem_singleton.mp hj]
      rfl)
    ⟨c2w_job, List.mem_singleton.mpr rfl, rfl⟩

/-- C3 counterexample: the claim states that a failed entry with
`allow_failure` set and a display name matching no
report-despite-allowed-failure pattern is kept in the report (only
excluded from the mandatory set).  The code instead never adds it (line 60
of `tasks/libs/pipeline/data.py`): on such a job the produced report is
entirely empty. -/
theorem allow_failure_entry_not_retained_concrete :
    c3_allowed_job.status = "failed" ∧ c3_allowed_job.allow_failure = true ∧
    get_failed_jobs [c3_allowed_job] emptyLogFetch = Except.ok ⟨[]⟩ :=
  ⟨rfl, rfl, rfl⟩

/-- C3 amended: a failed entry with `allow_failure` set whose display name
matches no report-despite-allowed-failure pattern is excluded from the
report entirely — it is not retained; every entry of any produced report
passes `should_report_job`, so the report's mandatory set is the whole
report and its excluded part is empty. -/
theorem report_entries_all_mandatory (executions : List JobExecution)
    (fetch : Nat → Except TransportError String) (report : FailedJobs)
    (h : get_failed_jobs executions fetch = Except.ok report) :
    (∀ j ∈ report.jobs, should_report_job j.name j.allow_failure = true) ∧
    report.all_mandatory_failures = report.jobs ∧
    report.excluded_failures = [] := by
  unfold get_failed_jobs at h
  have hpred := get_failed_jobs_go_pred executions fetch (failedNames executions) ⟨[]⟩
    report (by intro j hj; exact absurd hj (List.not_mem_nil j)) h
  refine ⟨hpred, ?_, ?_⟩
  · exact List.filter_eq_self.mpr (fun j hj => hpred j hj)
  · unfold FailedJobs.excluded_failures
    rw [List.filter_eq_nil_iff]
    intro j hj
    simp [hpred j hj]

/-- C3 witness: the amended theorem applied to the report of a single
mandatory (not allowed to fail) failed job. -/
theorem report_entries_all_mandatory_witness :
    (∀ j ∈ c3w_report.jobs, should_report_job j.name j.allow_failure = true) ∧
    c3w_report.all_mandatory_failures = c3w_report.jobs ∧
    c3w_report.excluded_failures = [] :=
  report_entries_all_mandatory [c3w_job] emptyLogFetch c3w_report rfl

/-- C4: `get_job_failure_context` applies its rules in strict order: a
bridge execution classifies as the bridge failure whatever the log; else
an infra-mapped platform failure code gives that mapped reason whatever
the log; else an empty log gives the Gitlab platform reason without
consulting the pattern table; else the first matching rule of the ordered
table wins (every earlier rule not matching), and with no matching rule
the default is a script failure. -/
theorem classifier_strict_order (job : JobExecution) (job_log : String) :
    (job.kind = JobKind.bridge →
      get_job_failure_context job job_log =
        (FailedJobType.BRIDGE_FAILURE, FailedJobReason.FAILED_BRIDGE_JOB)) ∧
    (∀ r, job.kind ≠ JobKind.bridge →
      job.failure_reason.bind from_gitlab_job_failure_reason = some r →
      get_job_failure_context job job_log = (FailedJobType.INFRA_FAILURE, r)) ∧
    (job.kind ≠ JobKind.bridge →
      job.failure_reason.bind from_gitlab_job_failure_reason = none →
      job_log = "" →
      get_job_failure_context job job_log =
        (FailedJobType.INFRA_FAILURE, FailedJobReason.GITLAB)) ∧
    (∀ i (hi : i < infra_failure_logs.length),
      job.kind ≠ JobKind.bridge →
      job.failure_reason.bind from_gitlab_job_failure_reason = none →
      job_log ≠ "" →
      (∀ k (hk : k < i), search (infra_failure_logs.get ⟨k, hk.trans hi⟩).1 job_log = false) →
      search (infra_failure_logs.get ⟨i, hi⟩).1 job_log = true →
      get_job_failure_context job job_log =
        (FailedJobType.INFRA_FAILURE, (infra_failure_logs.get ⟨i, hi⟩).2)) ∧
    (job.kind ≠ JobKind.bridge →
      job.failure_reason.bind from_gitlab_job_failure_reason = none →
      job_log ≠ "" →
      (∀ p ∈ infra_failure_logs, search p.1 job_log = false) →
      get_job_failure_context job job_log =
        (FailedJobType.JOB_FAILURE, FailedJobReason.FAILED_JOB_SCRIPT)) := by
  refine ⟨?_, ?_, ?_, ?_, ?_⟩
  · intro hb
    unfold get_job_failure_context
    rw [if_pos hb]
  · intro r hnb hr
    simp only [get_job_failure_context, if_neg hnb, hr]
  · intro hnb hr hlog
    simp only [get_job_failure_context, if_neg hnb, hr, get_infra_failure_info, if_pos hlog]
  · intro i hi hnb hr hlog hbefore hhit
    have hfind : infra_failure_logs.find? (fun p => search p.1 job_log) =
        some (infra_failure_logs.get ⟨i, hi⟩) :=
      find?_eq_get_of_first _ _ i hi hbefore hhit
    simp only [get_job_failure_context, if_neg hnb, hr, get_infra_failure_info,
      if_neg hlog, hfind, Option.map_some']
  · intro hnb hr hlog hall
    have hfind : infra_failure_logs.find? (fun p => search p.1 job_log) = none :=
      List.find?_eq_none.mpr (fun p hp => by simp [hall p hp])
    simp only [get_job_failure_context, if_neg hnb, hr, get_infra_failure_info,
      if_neg hlog, hfind, Option.map_none']

/-- C4 witness: the strict-order theorem at concrete inputs, one per rule:
a bridge, an infra-mapped code, an empty log, a log matching both the
first runner rule and the later E2E rule (resolved to the runner reason),
and a log matching nothing. -/
theorem classifier_strict_order_witness :
    get_job_failure_context c4_bridge_job "E2E INTERNAL ERROR" =
      (FailedJobType.BRIDGE_FAILURE, FailedJobReason.FAILED_BRIDGE_JOB) ∧
    get_job_failure_context c4_mapped_job "E2E INTERNAL ERROR" =
      (FailedJobType.INFRA_FAILURE, FailedJobReason.RUNNER) ∧
    get_job_failure_context c4_script_job "" =
      (FailedJobType.INFRA_FAILURE, FailedJobReason.GITLAB) ∧
    get_job_failure_context c4_script_job
        "no basic auth credentials (x) E2E INTERNAL ERROR" =
      (FailedJobType.INFRA_FAILURE, FailedJobReason.RUNNER) ∧
    get_job_failure_context c4_script_job "make: bad exit status" =
      (FailedJobType.JOB_FAILURE, FailedJobReason.FAILED_JOB_SCRIPT) := by
  refine ⟨(classifier_strict_order c4_bridge_job _).1 rfl,
    (classifier_strict_order c4_mapped_job _).2.1 FailedJobReason.RUNNER (by decide) rfl,
    (classifier_strict_order c4_script_job "").2.2.1 (by decide) rfl rfl,
    ?_, ?_⟩
  · exact (classifier_strict_order c4_script_job _).2.2.2.1 0 (by decide) (by decide) rfl
      (by decide) (fun k hk => absurd hk (Nat.not_lt_zero k)) (by decide)
  · exact (classifier_strict_order c4_script_job _).2.2.2.2 (by decide) rfl (by decide)
      (by decide)

/-- C6: every classification satisfies the invariant that its type is the
bridge failure exactly when its reason is the bridge reason, and a bridge
execution classifies as the bridge failure whatever the log text. -/
theorem bridge_iff_failed_bridge_reason (job : JobExecution) (job_log : String) :
    ((get_job_failure_context job job_log).1 = FailedJobType.BRIDGE_FAILURE ↔
     (get_job_failure_context job job_log).2 = FailedJobReason.FAILED_BRIDGE_JOB) ∧
    (job.kind = JobKind.bridge →
      get_job_failure_context job job_log =
        (FailedJobType.BRIDGE_FAILURE, FailedJobReason.FAILED_BRIDGE_JOB)) := by
  constructor
  · unfold get_job_failure_context
    split
    · simp
    · cases hr : job.failure_reason.bind from_gitlab_job_failure_reason with
      | some r =>
        rcases Option.bind_eq_some.mp hr with ⟨c, -, hcr⟩
        simp only [hr]
        exact iff_of_false (by decide) (mapped_reason_ne_bridge c r hcr)
      | none =>
        simp only [hr]
        cases hi : get_infra_failure_info job_log with
        | some t =>
          simp only [hi]
          exact iff_of_false (by decide) (log_reason_ne_bridge job_log t hi)
        | none =>
          simp only [hi]
          exact iff_of_false (by decide) (by decide)
  · intro hb
    unfold get_job_failure_context
    rw [if_pos hb]

/-- C6 witness: a bridge execution with an arbitrary log classifies as the
bridge failure with the bridge reason. -/
theorem bridge_iff_failed_bridge_reason_witness :
    get_job_failure_context c6_bridge_job "ignored log" =
      (FailedJobType.BRIDGE_FAILURE, FailedJobReason.FAILED_BRIDGE_JOB) :=
  (bridge_iff_failed_bridge_reason c6_bridge_job "ignored log").2 rfl

/-- C7: `truncate_job_name` keeps a name matching the preserve-full-name
patterns unchanged; otherwise it returns the part before the first colon,
truncated to at most 48 characters; concretely, `kmt_run_foo_tests_bar` is
preserved, `unit_tests:windows-x64` becomes `unit_tests`, and a 60-character
colon-free name becomes exactly its first 48 characters. -/
theorem truncate_job_name_spec (name : String) :
    (jobs_allowed_to_have_full_names.any (fun p => fullmatch p name) = true →
      truncate_job_name name 48 = name) ∧
    (jobs_allowed_to_have_full_names.any (fun p => fullmatch p name) = false →
      truncate_job_name name 48 =
        String.mk ((name.data.takeWhile (fun c => c != ':')).take 48)) ∧
    truncate_job_name "kmt_run_foo_tests_bar" 48 = "kmt_run_foo_tests_bar" ∧
    truncate_job_name "unit_tests:windows-x64" 48 = "unit_tests" ∧
    c7_longname.length = 60 ∧
    truncate_job_name c7_longname 48 = c7_long48 ∧
    c7_long48.length = 48 ∧
    c7_long48.data = c7_longname.data.take 48 := by
  refine ⟨?_, ?_, by decide, by decide, by decide, by decide, by decide, by decide⟩
  · intro h
    unfold truncate_job_name
    rw [if_pos h]
  · intro h
    unfold truncate_job_name
    rw [if_neg (by simp [h]), splitList_headD_eq_takeWhile]

/-- C7 witness: the truncation theorem at a preserved matrix job name and
at a colon-separated name. -/
theorem truncate_job_name_spec_witness :
    truncate_job_name "kmt_run_docker_tests_arm64" 48 = "kmt_run_docker_tests_arm64" ∧
    truncate_job_name "go_test:linux-amd64" 48 =
      String.mk ((("go_test:linux-amd64" : String).data.takeWhile (fun c => c != ':')).take 48) :=
  ⟨(truncate_job_name_spec "kmt_run_docker_tests_arm64").1 (by decide),
   (truncate_job_name_spec "go_test:linux-amd64").2.1 (by decide)⟩

/-- C8: the PR skip correlator's inner scan matches executions against the
failed job's untruncated `full_name` by case-sensitive string equality,
and counts the job as skipped exactly when either no PR-pipeline execution
bears that full name, or some execution bearing it has a status that is
neither `failed` nor `success`. -/
theorem pr_skip_condition_characterization (jobs : List JobExecution) (f : FinalJobStatus) :
    prJobSkipped jobs f.full_name = true ↔
      (∀ j ∈ jobs, j.name ≠ f.full_name) ∨
      (∃ j ∈ jobs, j.name = f.full_name ∧ j.status ≠ "failed" ∧ j.status ≠ "success") := by
  unfold prJobSkipped
  rw [prScan_eq_true_iff]
  simp

/-- C8 witness: a mandatory failure whose PR-pipeline counterpart exists
but is still `running` is counted as skipped. -/
theorem pr_skip_condition_characterization_witness :
    prJobSkipped [c8_pr_job] c8_failed_status.full_name = true :=
  (pr_skip_condition_characterization [c8_pr_job] c8_failed_status).mpr
    (Or.inr ⟨c8_pr_job, List.mem_singleton.mpr rfl, rfl, by decide, by decide⟩)

/-- C9: `get_jobs_skipped_on_pr` returns the empty list with an empty URL
in each no-correlation case: no pull request for the commit, more than one
pull request, or no pipeline for the single pull request's source branch.
The embedding is total, so no exception can be raised. -/
theorem no_correlation_returns_empty (pf : String → List PipelineHandle) (fj : FailedJobs) :
    (get_jobs_skipped_on_pr [] pf fj = ([], "")) ∧
    (∀ (p₁ p₂ : PRHandle) (rest : List PRHandle),
      get_jobs_skipped_on_pr (p₁ :: p₂ :: rest) pf fj = ([], "")) ∧
    (∀ pr : PRHandle, pf pr.head_ref = [] →
      get_jobs_skipped_on_pr [pr] pf fj = ([], "")) := by
  refine ⟨rfl, fun p₁ p₂ rest => rfl, fun pr h => ?_⟩
  simp only [get_jobs_skipped_on_pr, h]

/-- C9 witness: the no-correlation theorem at concrete inputs for all
three cases. -/
theorem no_correlation_returns_empty_witness :
    get_jobs_skipped_on_pr [] c9_no_pipelines c9_report = ([], "") ∧
    get_jobs_skipped_on_pr [c9_pr, c9_pr] c9_no_pipelines c9_report = ([], "") ∧
    get_jobs_skipped_on_pr [c9_pr] c9_no_pipelines c9_report = ([], "") :=
  ⟨(no_correlation_returns_empty c9_no_pipelines c9_report).1,
   (no_correlation_returns_empty c9_no_pipelines c9_report).2.1 c9_pr c9_pr [],
   (no_correlation_returns_empty c9_no_pipelines c9_report).2.2 c9_pr rfl⟩

/-- C10: every name `get_jobs_skipped_on_pr` returns is the `name` field of
a skipped mandatory failure — the truncated display name, not the
untruncated `full_name` used for matching — so mandatory failures whose
full names collide after truncation yield indistinguishable entries. -/
theorem skipped_names_are_display_names (pr : PRHandle)
    (pf : String → List PipelineHandle) (fj : FailedJobs)
    (p : PipelineHandle) (tail : List PipelineHandle)
    (hpf : pf pr.head_ref = p :: tail) :
    (get_jobs_skipped_on_pr [pr] pf fj).1 =
      (fj.all_mandatory_failures.filter
        (fun f => prJobSkipped (p.jobs ++ p.bridges) f.full_name)).map (fun f => f.name) := by
  simp only [get_jobs_skipped_on_pr, hpf]
  exact missedLoop_eq_filter_map _ _

/-- C10 witness: two distinct mandatory failures with full names
`tests_suite:linux` and `tests_suite:windows`, both missing from the PR
pipeline, produce the same display name twice. -/
theorem skipped_names_are_display_names_witness :
    (get_jobs_skipped_on_pr [c10_pr] c10_lookup c10_report).1 =
      ["tests_suite", "tests_suite"] := by
  rw [skipped_names_are_display_names c10_pr c10_lookup c10_report c10_pr_pipeline [] rfl]
  rfl

end PipelineData
